import Mathlib

/-!
# Verification of the Zendesk support dashboard (`src/app.py`)

A shallow embedding of the data-shaping logic of the dashboard: the cached
query loaders, the view-model reshaping (moving average, heatmap pivot,
leaderboards, KPI deltas) and the render pass of `main`.  Pandas/BigQuery
numeric values are modelled as `ℚ` (exact rationals); pandas `NaN` /
SQL `NULL` cells are modelled as `Option` `none`; tabular results are lists
of record rows in dataframe row order.
-/

namespace Dashboard

/-! ## Row types (§ DATA MODEL; column sets from the SQL in `app.py`) -/

/-- A row of `dim_daily_metrics` as used by `main` (`load_daily_metrics`,
ordered by `created_date DESC LIMIT 90` at the source).  Dates are encoded
as ordinals (days); `ticket_count` is a count, `csat_rate` a fraction. -/
structure DailyRow where
  created_date : Nat
  ticket_count : ℚ
  csat_rate : ℚ
  deriving Repr, DecidableEq

/-- A row of `dim_agent_performance` (`load_agent_performance`).  Months are
encoded as ordinals (e.g. yyyymm), so `max` picks the most recent month. -/
structure AgentRow where
  agent_name : String
  created_month : Nat
  tickets_handled : Nat
  csat_rate : ℚ
  deriving Repr, DecidableEq

/-- The single summary row produced by `load_current_stats`
(`fct_ticket_summary` aggregate). -/
structure SummaryStats where
  total_tickets : Nat
  backlog : Nat
  avg_resolution_hours : ℚ
  same_day_pct : ℚ
  csat_rate : ℚ
  today_tickets : Nat
  yesterday_tickets : Nat
  fast_response_pct : ℚ
  deriving Repr, DecidableEq

/-- A row of the tag aggregate (`load_tag_analysis`). -/
structure TagRow where
  tag : String
  total_tickets : Nat
  avg_resolution : ℚ
  avg_csat : ℚ
  deriving Repr, DecidableEq

/-- A row of the hourly heatmap query (`load_hourly_heatmap`):
`created_day_of_week, created_hour, COUNT(*) as ticket_count`. -/
structure HeatRow where
  created_day_of_week : String
  created_hour : Nat
  ticket_count : Nat
  deriving Repr, DecidableEq

/-! ## C8: the `csat_rate` SQL expression of `load_current_stats`

The column is
`ROUND(100.0 * COUNTIF(good) / NULLIF(COUNTIF(good or bad), 0), 1)`
with `good`/`bad` the two `COUNTIF` tallies over `csat_score`.
`NULLIF(x, 0)` makes the divisor `NULL` when no ticket is rated, and
division by `NULL` as well as `ROUND(NULL, 1)` are `NULL`, modelled as
`none`. -/

/-- BigQuery `ROUND(x, 1)`: round half away from zero to one decimal.
For the non-negative values produced here this agrees with `round`
(round-half-up) on `ℚ`. -/
def round1 (x : ℚ) : ℚ := (round (x * 10) : ℤ) / 10

/-- The summary `csat_rate` column as a function of the two `COUNTIF`
tallies `good` and `bad`; `none` models SQL `NULL`. -/
def csat_rate_sql (good bad : Nat) : Option ℚ :=
  if good + bad = 0 then none
  else some (round1 (100 * (good : ℚ) / ((good : ℚ) + (bad : ℚ))))

/-! ## C2: the 7-point trailing moving average

The `ma7` column of `main` is `rolling(7).mean()` of `ticket_count` after
`daily_df.sort_values(created_date)`.  Pandas `rolling(7).mean()` defaults
to `min_periods = 7`: positions with fewer than 7 samples are `NaN`
(modelled `none`); position `i` (0-based, `i ≥ 6`) is the mean of
elements `i-6 .. i`. -/

/-- The `sort_values(created_date)` step: stable ascending sort by date. -/
def sort_by_date (df : List DailyRow) : List DailyRow :=
  df.mergeSort (fun a b => decide (a.created_date ≤ b.created_date))

/-- `Series.rolling(7).mean()` on a list of rationals. -/
def ma7 (xs : List ℚ) : List (Option ℚ) :=
  (List.range xs.length).map (fun i =>
    if 7 ≤ i + 1 then some (((xs.take (i + 1)).drop (i + 1 - 7)).sum / 7)
    else none)

/-! ## C3 / C10: the todays-tickets KPI delta

In `main`: `today_delta` is `today_tickets - yesterday_tickets`;
`delta_type` is the string `negative` when `today_delta > 0` and
`positive` otherwise; the delta text interpolates `abs(today_delta)`
formatted with no decimals, followed by ` vs yesterday`.  The counts are
integers, so the subtraction lives in `ℤ` and the formatted absolute value
is exact. -/

/-- `today_delta` of `main`. -/
def today_delta (stats : SummaryStats) : ℤ :=
  (stats.today_tickets : ℤ) - (stats.yesterday_tickets : ℤ)

/-- `delta_type` chosen for the todays-tickets card in `main`. -/
def todayDeltaType (stats : SummaryStats) : String :=
  if today_delta stats > 0 then "negative" else "positive"

/-- The delta text of the todays-tickets card: the absolute value of
`today_delta`, formatted with no decimals, followed by ` vs yesterday`. -/
def todayDeltaText (stats : SummaryStats) : String :=
  toString (today_delta stats).natAbs ++ " vs yesterday"

/-! ## C1: the result cache

Each query loader of `app.py` is decorated `@st.cache_data(ttl=300)`.
The cache machinery itself is Streamlit library code, not part of this
repository. -/

/-- A stored cache entry: the value together with the time it was
produced. -/
structure CacheEntry (α : Type) where
  storedAt : Nat
  value : α
  deriving Repr, DecidableEq

/-- Result of one call through the cache: the returned value, the cache
state afterwards, and whether the underlying producer was invoked. -/
structure CallResult (α : Type) where
  value : α
  state : Option (CacheEntry α)
  invoked : Bool
  deriving Repr, DecidableEq

/-- Modelled from the spec: the `st.cache_data` TTL cache applied to the
query loaders is Streamlit library code missing from the source tree; per
the spec contract `cached(key, ttl_seconds, producer)`, a call returns the
stored entry without invoking the producer when a live entry exists
(age < ttl), and otherwise invokes the producer, stores the result with
the current timestamp and returns it — one entry per key. -/
def cachedCall {α : Type} (ttl : Nat) (producer : Unit → α) (now : Nat)
    (st : Option (CacheEntry α)) : CallResult α :=
  match st with
  | some e =>
      if now - e.storedAt < ttl then ⟨e.value, some e, false⟩
      else ⟨producer (), some ⟨now, producer ()⟩, true⟩
  | none => ⟨producer (), some ⟨now, producer ()⟩, true⟩

/-- The cached query loaders of `app.py` with their configured TTLs: each
of the five loader functions carries `@st.cache_data(ttl=300)`. -/
def queryLoaderTTLs : List (String × Nat) :=
  [("load_daily_metrics", 300),
   ("load_agent_performance", 300),
   ("load_current_stats", 300),
   ("load_tag_analysis", 300),
   ("load_hourly_heatmap", 300)]

/-! ## C4: agent leaderboards

In `main`: `current_month` keeps the agent rows whose `created_month`
equals the column maximum; `top_agents` is `nlargest(10, tickets_handled)`
of those rows and `top_csat` is `nlargest(5, csat_rate)` of the rows with
`tickets_handled >= 10`.  Pandas `nlargest` with its default keep policy
returns the first `n` rows of a stable descending sort by the column, so
ties are broken by dataframe row order. -/

/-- The pandas column maximum `agent_df[created_month].max()`. -/
def maxMonth (df : List AgentRow) : Nat :=
  (df.map (·.created_month)).foldr max 0

/-- `current_month`: the agent rows of the most recent month present. -/
def current_month (df : List AgentRow) : List AgentRow :=
  df.filter (fun r => r.created_month == maxMonth df)

/-- Stable descending sort by `tickets_handled` — the sort underlying
`nlargest(10, tickets_handled)`. -/
def sortByTicketsDesc (df : List AgentRow) : List AgentRow :=
  df.mergeSort (fun a b => decide (b.tickets_handled ≤ a.tickets_handled))

/-- `top_agents = current_month.nlargest(10, tickets_handled)`. -/
def top_agents (df : List AgentRow) : List AgentRow :=
  (sortByTicketsDesc (current_month df)).take 10

/-- The rows eligible for the CSAT leaderboard:
`current_month[tickets_handled >= 10]`. -/
def csat_eligible (df : List AgentRow) : List AgentRow :=
  (current_month df).filter (fun r => decide (10 ≤ r.tickets_handled))

/-- Stable descending sort by `csat_rate` — the sort underlying
`nlargest(5, csat_rate)`. -/
def sortByCsatDesc (df : List AgentRow) : List AgentRow :=
  df.mergeSort (fun a b => decide (b.csat_rate ≤ a.csat_rate))

/-- `top_csat = current_month[tickets_handled >= 10].nlargest(5, csat_rate)`. -/
def top_csat (df : List AgentRow) : List AgentRow :=
  (sortByCsatDesc (csat_eligible df)).take 5

/-! ## C5: the heatmap pivot

`heatmap_df.pivot_table(index=created_day_of_week, columns=created_hour,
values=ticket_count, aggfunc=sum).reindex(day_order)`: cells aggregate
duplicate (day, hour) rows by sum; a (day, hour) pair with no rows is
`NaN`; the columns are the distinct hours present in the data, sorted
ascending; `reindex(day_order)` makes exactly one row per day of
`day_order`, a day absent from the data becoming an all-`NaN` row. -/

/-- `day_order` of `main`. -/
def day_order : List String :=
  ["Monday", "Tuesday", "Wednesday", "Thursday", "Friday", "Saturday",
   "Sunday"]

/-- The pivot columns: distinct `created_hour` values present, ascending. -/
def pivotHours (df : List HeatRow) : List Nat :=
  ((df.map (·.created_hour)).dedup).mergeSort (fun a b => decide (a ≤ b))

/-- One pivot cell: the sum of `ticket_count` over the rows with the given
day and hour, `NaN` (`none`) when no row matches. -/
def pivotCell (df : List HeatRow) (d : String) (h : Nat) : Option Nat :=
  let rows := df.filter
    (fun r => r.created_day_of_week == d && r.created_hour == h)
  if rows.isEmpty then none else some (rows.map (·.ticket_count)).sum

/-- `heatmap_pivot` of `main`: one row per day of `day_order` in that
order, one column per distinct hour present. -/
def heatmap_pivot (df : List HeatRow) : List (String × List (Option Nat)) :=
  day_order.map (fun d => (d, (pivotHours df).map (fun h => pivotCell df d h)))

/-! ## The render pass of `main`

The emitted Streamlit/Plotly widgets, in order, as an explicit trace.
Chart widgets carry the data series actually handed to Plotly. -/

/-- One widget emitted during the render pass. -/
inductive Widget where
  | pageHeader
  | errorBox (msg : String)
  | metricCard (value label : String) (delta : Option (String × String × String))
  | lineBreak
  | sectionHead (title : String)
  | trendChart (pts : List (Nat × ℚ)) (ma : List (Option ℚ))
  | csatChart (pts : List (Nat × ℚ))
  | heatChart (matrix : List (String × List (Option Nat)))
  | tagChart (bars : List (String × Nat))
  | agentTicketsChart (bars : List (String × Nat))
  | agentCsatChart (bars : List (String × ℚ))
  | pageFooter
  deriving Repr, DecidableEq

/-- Python format spec `.0f` on the exact values used here, modelled as
rounding to the nearest integer (on floats `.0f` rounds half to even; the
difference is immaterial to every property proved below, none of which
inspects a formatted value). -/
def fmtF0 (q : ℚ) : String := toString (round q : ℤ)

/-- Python format spec `.1f`, modelled as rounding to one decimal. -/
def fmtF1 (q : ℚ) : String := toString (round1 q)

/-- The delta block of `render_metric_card`: emitted only when `delta` is
truthy — not `None` and not the empty string; its css class and arrow
glyph are chosen by `delta_type`.  The rendered block is modelled as the
triple (css class, arrow, text). -/
def deltaHtml (delta : Option String) (delta_type : String) :
    Option (String × String × String) :=
  match delta with
  | some s =>
      if s = "" then none
      else some
        ((if delta_type = "positive" then "metric-delta-positive"
          else "metric-delta-negative"),
         (if delta_type = "positive" then "↑" else "↓"), s)
  | none => none

/-- `render_metric_card(value, label, delta, delta_type)`: one metric-card
widget whose delta block follows the truthiness rule of `deltaHtml`. -/
def render_metric_card (value label : String) (delta : Option String)
    (delta_type : String) : Widget :=
  Widget.metricCard value label (deltaHtml delta delta_type)

/-- The CSAT KPI card of `main`: the delta text is the hardcoded string
`2.3% vs last week`, shown only when `csat_rate > 65`, always framed
positive in that case. -/
def csatCard (stats : SummaryStats) : Widget :=
  render_metric_card (fmtF0 stats.csat_rate ++ "%") "CSAT Score"
    (if 65 < stats.csat_rate then some "2.3% vs last week" else none)
    (if 65 < stats.csat_rate then "positive" else "negative")

/-- The backlog KPI card of `main` (no delta text). -/
def backlogCard (stats : SummaryStats) : Widget :=
  render_metric_card (toString stats.backlog) "Open Backlog" none
    (if stats.backlog < 150 then "positive" else "negative")

/-- The average-resolution KPI card of `main`. -/
def avgResolutionCard (stats : SummaryStats) : Widget :=
  render_metric_card (fmtF1 stats.avg_resolution_hours ++ "h")
    "Avg Resolution" none "positive"

/-- The same-day-resolution KPI card of `main`. -/
def sameDayCard (stats : SummaryStats) : Widget :=
  render_metric_card (fmtF0 stats.same_day_pct ++ "%")
    "Same-Day Resolution" none "positive"

/-- The todays-tickets KPI card of `main`, with the delta of C3/C10. -/
def todayCard (stats : SummaryStats) : Widget :=
  render_metric_card (toString stats.today_tickets) "Today\u0027s Tickets"
    (some (todayDeltaText stats)) (todayDeltaType stats)

/-- The widgets emitted by the body of `main` after the five loads have
succeeded: five KPI cards, four chart sections, the agent-performance
section (its charts guarded by the two emptiness checks) and the footer. -/
def renderBody (stats : SummaryStats) (daily : List DailyRow)
    (agent : List AgentRow) (tag : List TagRow) (heat : List HeatRow) :
    List Widget :=
  let daily_sorted := sort_by_date daily
  [csatCard stats, backlogCard stats, avgResolutionCard stats,
   sameDayCard stats, todayCard stats, Widget.lineBreak,
   Widget.sectionHead "📈 Ticket Volume Trend",
   Widget.trendChart
     (daily_sorted.map (fun r => (r.created_date, r.ticket_count)))
     (ma7 (daily_sorted.map (·.ticket_count))),
   Widget.sectionHead "🎯 CSAT Trend",
   Widget.csatChart
     (daily_sorted.map (fun r => (r.created_date, r.csat_rate * 100))),
   Widget.sectionHead "🔥 Volume Heatmap",
   Widget.heatChart (heatmap_pivot heat),
   Widget.sectionHead "🏷️ Top Issue Categories",
   Widget.tagChart ((tag.take 8).map (fun r => (r.tag, r.total_tickets))),
   Widget.sectionHead "👥 Agent Performance"]
  ++ (if (current_month agent).isEmpty then []
      else
        Widget.agentTicketsChart
          ((top_agents agent).map (fun r => (r.agent_name, r.tickets_handled)))
        :: (if (top_csat agent).isEmpty then []
            else [Widget.agentCsatChart
              ((top_csat agent).map (fun r => (r.agent_name, r.csat_rate * 100)))]))
  ++ [Widget.pageFooter]

/-- The sequential `try` block of `main`: the five loads run in order and
the first exception aborts the block. -/
def loadAll (stats : Except String SummaryStats)
    (daily : Except String (List DailyRow))
    (agent : Except String (List AgentRow))
    (tag : Except String (List TagRow))
    (heat : Except String (List HeatRow)) :
    Except String
      (SummaryStats × List DailyRow × List AgentRow × List TagRow ×
        List HeatRow) := do
  let s ← stats
  let d ← daily
  let a ← agent
  let t ← tag
  let h ← heat
  pure (s, d, a, t, h)

/-- The render pass of `main`: the page header is emitted first; then the
five loads run inside `try` — an exception is caught, a single `st.error`
box is shown and `main` returns; otherwise the full body renders. -/
def main_render (stats : Except String SummaryStats)
    (daily : Except String (List DailyRow))
    (agent : Except String (List AgentRow))
    (tag : Except String (List TagRow))
    (heat : Except String (List HeatRow)) : List Widget :=
  Widget.pageHeader ::
    match loadAll stats daily agent tag heat with
    | Except.error e => [Widget.errorBox ("Error loading data: " ++ e)]
    | Except.ok (s, d, a, t, h) => renderBody s d a t h

/-- Recognizes the inline error box. -/
def isErrorBox : Widget → Bool
  | Widget.errorBox _ => true
  | _ => false

/-- Recognizes a KPI metric card. -/
def isCard : Widget → Bool
  | Widget.metricCard .. => true
  | _ => false

/-- Recognizes any chart widget. -/
def isChart : Widget → Bool
  | Widget.trendChart .. => true
  | Widget.csatChart _ => true
  | Widget.heatChart _ => true
  | Widget.tagChart _ => true
  | Widget.agentTicketsChart _ => true
  | Widget.agentCsatChart _ => true
  | _ => false

/-- Recognizes the two agent-performance charts. -/
def isAgentChart : Widget → Bool
  | Widget.agentTicketsChart _ => true
  | Widget.agentCsatChart _ => true
  | _ => false

/-- Recognizes the top-CSAT agent chart alone. -/
def isAgentCsatChart : Widget → Bool
  | Widget.agentCsatChart _ => true
  | _ => false

end Dashboard

namespace Dashboard

/-! ## Theorems -/

/-- **C1 (counterexample)**: `app.py` defines five cached query loaders,
not six — the claim that the 300-second TTL covers six query keys fails
on the code. -/
theorem queryLoaderTTLs_not_six_keys :
    queryLoaderTTLs.length = 5 ∧ queryLoaderTTLs.length ≠ 6 := by decide

/-- **C1 (amended)**: for a fixed key, two calls within the TTL window
invoke the producer exactly once (the first call invokes it, the second
returns the cached value without invoking it), a call at or after TTL
expiry invokes it again, and the TTL is 300 seconds for each of the five
cached query loaders. -/
theorem cache_ttl_spec :
    (∀ (α : Type) (ttl t₀ t₁ : Nat) (p₀ p₁ : Unit → α),
      t₁ - t₀ < ttl →
      (cachedCall ttl p₀ t₀ none).invoked = true ∧
      (cachedCall ttl p₁ t₁ (cachedCall ttl p₀ t₀ none).state).invoked
        = false ∧
      (cachedCall ttl p₁ t₁ (cachedCall ttl p₀ t₀ none).state).value
        = p₀ ()) ∧
    (∀ (α : Type) (ttl t₀ t₂ : Nat) (p₀ p₂ : Unit → α),
      ttl ≤ t₂ - t₀ →
      (cachedCall ttl p₂ t₂ (cachedCall ttl p₀ t₀ none).state).invoked
        = true) ∧
    queryLoaderTTLs.length = 5 ∧ (∀ p ∈ queryLoaderTTLs, p.2 = 300) := by
  refine ⟨?_, ?_, by decide, by decide⟩
  · intro α ttl t₀ t₁ p₀ p₁ h
    refine ⟨rfl, ?_, ?_⟩ <;> simp [cachedCall, h]
  · intro α ttl t₀ t₂ p₀ p₂ h
    simp [cachedCall, Nat.not_lt.mpr h]

/-- Witness for `cache_ttl_spec`: TTL 300, a cold call at time 0, a hit at
time 299 and a refill at time 300. -/
theorem cache_ttl_spec_witness :
    (cachedCall 300 (fun _ => (1 : Nat)) 0 none).invoked = true ∧
    (cachedCall 300 (fun _ => (2 : Nat)) 299
      (cachedCall 300 (fun _ => (1 : Nat)) 0 none).state).invoked = false ∧
    (cachedCall 300 (fun _ => (3 : Nat)) 300
      (cachedCall 300 (fun _ => (1 : Nat)) 0 none).state).invoked = true :=
  ⟨(cache_ttl_spec.1 Nat 300 0 299 (fun _ => 1) (fun _ => 2)
      (by norm_num)).1,
   (cache_ttl_spec.1 Nat 300 0 299 (fun _ => 1) (fun _ => 2)
      (by norm_num)).2.1,
   cache_ttl_spec.2.1 Nat 300 0 300 (fun _ => 1) (fun _ => 3) (by norm_num)⟩

/-- **C9**: whenever the summary csat_rate exceeds 65, the CSAT KPI card
shows the delta text `2.3% vs last week` framed positive — a hardcoded
literal, independent of every fetched value — and whenever csat_rate ≤ 65
the card shows no delta. -/
theorem csat_card_hardcoded_delta :
    (∀ stats : SummaryStats, 65 < stats.csat_rate →
      csatCard stats = Widget.metricCard (fmtF0 stats.csat_rate ++ "%")
        "CSAT Score"
        (some ("metric-delta-positive", "↑", "2.3% vs last week"))) ∧
    (∀ stats : SummaryStats, stats.csat_rate ≤ 65 →
      csatCard stats = Widget.metricCard (fmtF0 stats.csat_rate ++ "%")
        "CSAT Score" none) := by
  constructor
  · intro stats h
    rw [csatCard, if_pos h, if_pos h]
    rfl
  · intro stats h
    rw [csatCard, if_neg (not_lt.mpr h), if_neg (not_lt.mpr h)]
    rfl

/-- Witness for `csat_card_hardcoded_delta`: instantiated at csat_rate 66
(delta shown) and csat_rate 65 (no delta). -/
theorem csat_card_hardcoded_delta_witness :
    csatCard ⟨0, 0, 0, 0, 66, 0, 0, 0⟩ =
      Widget.metricCard (fmtF0 66 ++ "%") "CSAT Score"
        (some ("metric-delta-positive", "↑", "2.3% vs last week")) ∧
    csatCard ⟨0, 0, 0, 0, 65, 0, 0, 0⟩ =
      Widget.metricCard (fmtF0 65 ++ "%") "CSAT Score" none :=
  ⟨csat_card_hardcoded_delta.1 ⟨0, 0, 0, 0, 66, 0, 0, 0⟩ (by norm_num),
   csat_card_hardcoded_delta.2 ⟨0, 0, 0, 0, 65, 0, 0, 0⟩ (by norm_num)⟩

/-- **C10**: when today_tickets equals yesterday_tickets the todays-tickets
card frames the zero delta positive and still displays `0 vs yesterday`
with the up-arrow — zero is grouped with the improvement case. -/
theorem zero_delta_framed_positive (stats : SummaryStats)
    (h : stats.today_tickets = stats.yesterday_tickets) :
    todayDeltaType stats = "positive" ∧
    todayCard stats = Widget.metricCard (toString stats.today_tickets)
      "Today\u0027s Tickets"
      (some ("metric-delta-positive", "↑", "0 vs yesterday")) := by
  have hd : today_delta stats = 0 := by simp [today_delta, h]
  have ht : todayDeltaType stats = "positive" := by
    rw [todayDeltaType, hd]
    rfl
  refine ⟨ht, ?_⟩
  rw [todayCard, todayDeltaText, hd, ht]
  rfl

/-- Witness for `zero_delta_framed_positive`: today = yesterday = 50. -/
theorem zero_delta_framed_positive_witness :
    todayDeltaType ⟨0, 0, 0, 0, 0, 50, 50, 0⟩ = "positive" ∧
    todayCard ⟨0, 0, 0, 0, 0, 50, 50, 0⟩ =
      Widget.metricCard (toString (50 : Nat)) "Today\u0027s Tickets"
        (some ("metric-delta-positive", "↑", "0 vs yesterday")) :=
  zero_delta_framed_positive ⟨0, 0, 0, 0, 0, 50, 50, 0⟩ rfl

/-- **C8**: the summary `csat_rate` equals `100 × good / (good + bad)` over
rated tickets rounded to one decimal, is `NULL` (not a division error) when
no ticket is rated, and `good = 130`, `bad = 70` yields `65.0`. -/
theorem csat_rate_formula :
    (∀ good bad : Nat, 0 < good + bad →
      csat_rate_sql good bad =
        some (round1 (100 * (good : ℚ) / ((good : ℚ) + (bad : ℚ))))) ∧
    csat_rate_sql 0 0 = none ∧
    csat_rate_sql 130 70 = some 65 := by
  refine ⟨fun good bad h => ?_, rfl, ?_⟩
  · have : good + bad ≠ 0 := Nat.pos_iff_ne_zero.mp h
    simp [csat_rate_sql, this]
  · norm_num [csat_rate_sql, round1]

/-- Witness for `csat_rate_formula` (its first conjunct carries a
hypothesis): instantiated at `good = 130`, `bad = 70`. -/
theorem csat_rate_formula_witness :
    csat_rate_sql 130 70 =
      some (round1 (100 * (130 : ℚ) / ((130 : ℚ) + (70 : ℚ)))) :=
  csat_rate_formula.1 130 70 (by norm_num)

/-- **C2**: on the sorted series `[2,4,6,8,10,12,14]` the 7-point trailing
moving average at the 7th point is `8.0`, and for every series the first
six positions are uniformly undefined (`NaN`, modelled `none`) — pandas
`rolling(7).mean()` with its default `min_periods`. -/
theorem ma7_spec :
    ma7 [2, 4, 6, 8, 10, 12, 14] =
      [none, none, none, none, none, none, some 8] ∧
    ∀ (xs : List ℚ) (i : Nat), i < 6 → (ma7 xs).getD i none = none := by
  constructor
  · simp [ma7, List.range_succ]
    norm_num
  · intro xs i hi
    rcases Nat.lt_or_ge i xs.length with h | h
    · have h' : i < (ma7 xs).length := by simpa [ma7] using h
      rw [List.getD_eq_getElem?_getD, List.getElem?_eq_getElem h',
        Option.getD_some]
      simp only [ma7, List.getElem_map, List.getElem_range]
      rw [if_neg (by omega)]
    · have h' : (ma7 xs).length ≤ i := by simpa [ma7] using h
      rw [List.getD_eq_getElem?_getD, List.getElem?_eq_none h']
      rfl

/-- Witness for `ma7_spec` (its second conjunct has the hypothesis
`i < 6`): position 0 of the example series is undefined. -/
theorem ma7_spec_witness :
    (ma7 [2, 4, 6, 8, 10, 12, 14]).getD 0 none = none :=
  ma7_spec.2 [2, 4, 6, 8, 10, 12, 14] 0 (by norm_num)

/-- **C3**: the KPI delta is `today_tickets - yesterday_tickets` displayed
as an absolute value, framed `"negative"` exactly when the delta is
strictly positive and `"positive"` otherwise; in particular
`today = 120, yesterday = 100` gives delta `20` framed `"negative"` and
`today = 80, yesterday = 100` gives delta `20` framed `"positive"`. -/
theorem today_delta_framing :
    (∀ stats : SummaryStats,
      today_delta stats =
        (stats.today_tickets : ℤ) - (stats.yesterday_tickets : ℤ) ∧
      todayDeltaText stats = toString (today_delta stats).natAbs ++ " vs yesterday" ∧
      (todayDeltaType stats = "negative" ↔ 0 < today_delta stats) ∧
      (todayDeltaType stats = "positive" ↔ ¬ 0 < today_delta stats)) ∧
    (∀ stats : SummaryStats, stats.today_tickets = 120 →
      stats.yesterday_tickets = 100 →
      today_delta stats = 20 ∧ todayDeltaType stats = "negative") ∧
    (∀ stats : SummaryStats, stats.today_tickets = 80 →
      stats.yesterday_tickets = 100 →
      (today_delta stats).natAbs = 20 ∧ todayDeltaType stats = "positive") := by
  refine ⟨fun stats => ⟨rfl, rfl, ?_, ?_⟩, ?_, ?_⟩
  · constructor
    · intro h
      by_contra hpos
      rw [todayDeltaType, if_neg hpos] at h
      exact absurd h (by decide)
    · intro h
      rw [todayDeltaType, if_pos h]
  · constructor
    · intro h hpos
      rw [todayDeltaType, if_pos hpos] at h
      exact absurd h (by decide)
    · intro h
      rw [todayDeltaType, if_neg h]
  · intro stats ht hy
    constructor
    · simp [today_delta, ht, hy]
    · simp [todayDeltaType, today_delta, ht, hy]
  · intro stats ht hy
    constructor
    · simp [today_delta, ht, hy]
    · simp [todayDeltaType, today_delta, ht, hy]

/-- Witness for `today_delta_framing` (its example conjuncts have
hypotheses): instantiated at the concrete stats rows `today = 120,
yesterday = 100` and `today = 80, yesterday = 100`. -/
theorem today_delta_framing_witness :
    (today_delta ⟨0, 0, 0, 0, 0, 120, 100, 0⟩ = 20 ∧
      todayDeltaType ⟨0, 0, 0, 0, 0, 120, 100, 0⟩ = "negative") ∧
    ((today_delta ⟨0, 0, 0, 0, 0, 80, 100, 0⟩).natAbs = 20 ∧
      todayDeltaType ⟨0, 0, 0, 0, 0, 80, 100, 0⟩ = "positive") :=
  ⟨today_delta_framing.2.1 ⟨0, 0, 0, 0, 0, 120, 100, 0⟩ rfl rfl,
   today_delta_framing.2.2 ⟨0, 0, 0, 0, 0, 80, 100, 0⟩ rfl rfl⟩

/-! ### Helper lemmas about the render pass -/

/-- The agent-performance section header is emitted on every successful
body render, whatever the loaded tables contain. -/
theorem agent_section_head_always (stats : SummaryStats)
    (daily : List DailyRow) (agent : List AgentRow) (tag : List TagRow)
    (heat : List HeatRow) :
    Widget.sectionHead "👥 Agent Performance" ∈
      renderBody stats daily agent tag heat := by
  simp [renderBody]

/-- A successful body render never contains an error box. -/
theorem renderBody_no_error (stats : SummaryStats) (daily : List DailyRow)
    (agent : List AgentRow) (tag : List TagRow) (heat : List HeatRow) :
    (renderBody stats daily agent tag heat).countP isErrorBox = 0 := by
  cases hc : (current_month agent).isEmpty <;>
    cases ht : (top_csat agent).isEmpty <;>
      simp [renderBody, hc, ht, List.countP_append, List.countP_cons,
        isErrorBox, csatCard, backlogCard, avgResolutionCard, sameDayCard,
        todayCard, render_metric_card]

/-- A successful body render always reaches the footer. -/
theorem renderBody_footer (stats : SummaryStats) (daily : List DailyRow)
    (agent : List AgentRow) (tag : List TagRow) (heat : List HeatRow) :
    Widget.pageFooter ∈ renderBody stats daily agent tag heat := by
  simp [renderBody]

/-- **C6**: if any of the five data loaders raises an exception during the
render pass, exactly one inline error box is shown and the render aborts:
no KPI card and no chart is emitted. -/
theorem load_error_aborts_render
    (stats : Except String SummaryStats)
    (daily : Except String (List DailyRow))
    (agent : Except String (List AgentRow))
    (tag : Except String (List TagRow))
    (heat : Except String (List HeatRow))
    (h : (∃ e, stats = Except.error e) ∨ (∃ e, daily = Except.error e) ∨
      (∃ e, agent = Except.error e) ∨ (∃ e, tag = Except.error e) ∨
      (∃ e, heat = Except.error e)) :
    (∃ e, main_render stats daily agent tag heat =
      [Widget.pageHeader, Widget.errorBox ("Error loading data: " ++ e)]) ∧
    (main_render stats daily agent tag heat).countP isErrorBox = 1 ∧
    (main_render stats daily agent tag heat).countP isCard = 0 ∧
    (main_render stats daily agent tag heat).countP isChart = 0 := by
  rcases stats with e | s
  · exact ⟨⟨e, rfl⟩, rfl, rfl, rfl⟩
  rcases daily with e | d
  · exact ⟨⟨e, rfl⟩, rfl, rfl, rfl⟩
  rcases agent with e | a
  · exact ⟨⟨e, rfl⟩, rfl, rfl, rfl⟩
  rcases tag with e | t
  · exact ⟨⟨e, rfl⟩, rfl, rfl, rfl⟩
  rcases heat with e | hh
  · exact ⟨⟨e, rfl⟩, rfl, rfl, rfl⟩
  · simp at h

/-- Witness for `load_error_aborts_render`: the first loader fails with a
concrete message, the remaining loaders succeed with empty tables. -/
theorem load_error_aborts_render_witness :
    (∃ e, main_render (Except.error "boom") (Except.ok []) (Except.ok [])
      (Except.ok []) (Except.ok []) =
      [Widget.pageHeader, Widget.errorBox ("Error loading data: " ++ e)]) ∧
    (main_render (Except.error "boom") (Except.ok []) (Except.ok [])
      (Except.ok []) (Except.ok [])).countP isErrorBox = 1 ∧
    (main_render (Except.error "boom") (Except.ok []) (Except.ok [])
      (Except.ok []) (Except.ok [])).countP isCard = 0 ∧
    (main_render (Except.error "boom") (Except.ok []) (Except.ok [])
      (Except.ok []) (Except.ok [])).countP isChart = 0 :=
  load_error_aborts_render _ _ _ _ _ (Or.inl ⟨"boom", rfl⟩)

/-- **C7 (counterexample)**: with an agent table containing no row for the
maximum month (here: no row at all), the render still emits the
agent-performance section header — the section is not skipped entirely,
only its charts are. -/
theorem agent_section_header_still_rendered :
    current_month [] = [] ∧
    Widget.sectionHead "👥 Agent Performance" ∈
      renderBody ⟨0, 0, 0, 0, 0, 0, 0, 0⟩ [] [] [] [] :=
  ⟨rfl, agent_section_head_always _ _ _ _ _⟩

/-- **C7 (amended)**: the empty-result edge cases are handled locally
without raising: when no agent row matches the maximum month both
agent-performance charts are skipped (though the section header is still
emitted); when the ≥ 10-tickets pool is empty only the top-CSAT chart is
skipped while the tickets leaderboard still renders; an empty tag-analysis
result renders the category chart with zero bars — and in all three cases
the body renders to the footer with no error box. -/
theorem empty_cases_handled :
    (∀ (stats : SummaryStats) (daily : List DailyRow)
      (agent : List AgentRow) (tag : List TagRow) (heat : List HeatRow),
      current_month agent = [] →
      (renderBody stats daily agent tag heat).countP isAgentChart = 0 ∧
      Widget.sectionHead "👥 Agent Performance" ∈
        renderBody stats daily agent tag heat ∧
      (renderBody stats daily agent tag heat).countP isErrorBox = 0 ∧
      Widget.pageFooter ∈ renderBody stats daily agent tag heat) ∧
    (∀ (stats : SummaryStats) (daily : List DailyRow)
      (agent : List AgentRow) (tag : List TagRow) (heat : List HeatRow),
      current_month agent ≠ [] → top_csat agent = [] →
      (renderBody stats daily agent tag heat).countP isAgentCsatChart = 0 ∧
      (renderBody stats daily agent tag heat).countP isAgentChart = 1 ∧
      (renderBody stats daily agent tag heat).countP isErrorBox = 0) ∧
    (∀ (stats : SummaryStats) (daily : List DailyRow)
      (agent : List AgentRow) (heat : List HeatRow),
      Widget.tagChart [] ∈ renderBody stats daily agent [] heat ∧
      (renderBody stats daily agent [] heat).countP isErrorBox = 0) := by
  refine ⟨?_, ?_, ?_⟩
  · intro stats daily agent tag heat h
    have hc : (current_month agent).isEmpty = true := by
      simp [List.isEmpty_iff, h]
    refine ⟨?_, agent_section_head_always stats daily agent tag heat,
      renderBody_no_error stats daily agent tag heat,
      renderBody_footer stats daily agent tag heat⟩
    simp [renderBody, hc, List.countP_append, List.countP_cons,
      isAgentChart, csatCard, backlogCard, avgResolutionCard, sameDayCard,
      todayCard, render_metric_card]
  · intro stats daily agent tag heat h1 h2
    have hc : (current_month agent).isEmpty = false := by
      simp [h1]
    have ht : (top_csat agent).isEmpty = true := by
      simp [List.isEmpty_iff, h2]
    refine ⟨?_, ?_, renderBody_no_error stats daily agent tag heat⟩ <;>
      simp [renderBody, hc, ht, List.countP_append, List.countP_cons,
        isAgentChart, isAgentCsatChart, csatCard, backlogCard,
        avgResolutionCard, sameDayCard, todayCard, render_metric_card]
  · intro stats daily agent heat
    exact ⟨by simp [renderBody],
      renderBody_no_error stats daily agent [] heat⟩

/-! ### The heatmap pivot -/

/-- The pivot columns of the two-row Monday example: the single hour 9. -/
theorem pivotHours_example :
    pivotHours [⟨"Monday", 9, 5⟩, ⟨"Monday", 9, 3⟩] = [9] := by
  have h : (([⟨"Monday", 9, 5⟩, ⟨"Monday", 9, 3⟩] : List HeatRow).map
      (·.created_hour)).dedup = [9] := by decide
  unfold pivotHours
  rw [h, List.mergeSort_singleton]

/-- **C5 (counterexample)**: on a heatmap table whose rows mention only
hour 9, the pivot has 7 rows but a single column per row — the matrix is
7×1, not 7×24. -/
theorem heatmap_pivot_not_7x24 :
    (heatmap_pivot [⟨"Monday", 9, 5⟩, ⟨"Monday", 9, 3⟩]).length = 7 ∧
    (heatmap_pivot [⟨"Monday", 9, 5⟩, ⟨"Monday", 9, 3⟩]).map
      (fun row => row.2.length) = List.replicate 7 1 ∧
    ¬ (heatmap_pivot [⟨"Monday", 9, 5⟩, ⟨"Monday", 9, 3⟩]).map
      (fun row => row.2.length) = List.replicate 7 24 := by
  refine ⟨by simp [heatmap_pivot, day_order], ?_, ?_⟩ <;>
    simp [heatmap_pivot, day_order, pivotHours_example, List.replicate]

/-- **C5 (amended)**: duplicate (day, hour) rows aggregate by sum into a
single cell — the Monday-9 example yields 8 —, the pivot rows are exactly
`day_order` (Monday through Sunday, 7 rows), every row has one cell per
distinct hour present in the data (24 only when every hour occurs), and a
day with zero rows becomes an all-`NaN` (absent) row rather than a crash. -/
theorem heatmap_pivot_spec :
    (heatmap_pivot [⟨"Monday", 9, 5⟩, ⟨"Monday", 9, 3⟩] =
      [("Monday", [some 8]), ("Tuesday", [none]), ("Wednesday", [none]),
       ("Thursday", [none]), ("Friday", [none]), ("Saturday", [none]),
       ("Sunday", [none])]) ∧
    (∀ df : List HeatRow,
      (heatmap_pivot df).map Prod.fst = day_order ∧
      (heatmap_pivot df).length = 7 ∧
      ∀ row ∈ heatmap_pivot df, row.2.length = (pivotHours df).length) ∧
    (∀ (df : List HeatRow) (d : String) (cells : List (Option Nat)),
      (∀ r ∈ df, r.created_day_of_week ≠ d) →
      (d, cells) ∈ heatmap_pivot df →
      cells = List.replicate (pivotHours df).length none) := by
  refine ⟨?_, ?_, ?_⟩
  · simp only [heatmap_pivot, pivotHours_example, day_order, List.map]
    decide
  · intro df
    refine ⟨rfl, by simp [heatmap_pivot, day_order], ?_⟩
    · intro row hrow
      simp only [heatmap_pivot, List.mem_map] at hrow
      obtain ⟨d, hd, heq⟩ := hrow
      rw [← heq]
      simp
  · intro df d cells hnone hmem
    simp only [heatmap_pivot, List.mem_map] at hmem
    obtain ⟨d', hd', heq⟩ := hmem
    injection heq with h1 h2
    subst h1
    rw [← h2]
    have hcell : ∀ hr : Nat, pivotCell df d' hr = none := by
      intro hr
      have hfil : df.filter (fun r =>
          r.created_day_of_week == d' && r.created_hour == hr) = [] := by
        rw [List.filter_eq_nil_iff]
        intro r hrr
        simp [hnone r hrr]
      simp [pivotCell, hfil]
    calc (pivotHours df).map (fun hr => pivotCell df d' hr)
        = (pivotHours df).map (fun _ => (none : Option Nat)) :=
          List.map_congr_left (fun hr _ => hcell hr)
      _ = List.replicate (pivotHours df).length none :=
          List.map_const' _ _

/-- Witness for `heatmap_pivot_spec` (its universally quantified parts
carry hypotheses): in the Monday-only example, Sunday has zero rows and
its pivot row is the all-`NaN` row of width 1. -/
theorem heatmap_pivot_spec_witness :
    (∀ r ∈ ([⟨"Monday", 9, 5⟩, ⟨"Monday", 9, 3⟩] : List HeatRow),
      r.created_day_of_week ≠ "Sunday") ∧
    ([none] : List (Option Nat)) =
      List.replicate
        (pivotHours [⟨"Monday", 9, 5⟩, ⟨"Monday", 9, 3⟩]).length none :=
  ⟨by decide,
   heatmap_pivot_spec.2.2 [⟨"Monday", 9, 5⟩, ⟨"Monday", 9, 3⟩] "Sunday"
     [none] (by decide) (by rw [heatmap_pivot_spec.1]; decide)⟩

/-! ### The agent leaderboards -/

/-- **C4**: both leaderboards draw only on rows of the maximum
created_month present: `top_agents` is the top-10 of those rows by
tickets_handled (at most 10 rows, every kept row at least as large as
every dropped row, kept+dropped a permutation of the max-month pool) and
is stable under ties — rows with equal tickets_handled keep their
dataframe order, the keep-first tie-break of pandas nlargest; `top_csat`
is the top-5 by csat_rate restricted to max-month rows with at least 10
tickets handled. -/
theorem leaderboards_spec :
    (∀ df : List AgentRow, ∀ r ∈ top_agents df,
      r.created_month = maxMonth df) ∧
    (∀ df : List AgentRow, (top_agents df).length ≤ 10) ∧
    (∀ df : List AgentRow, ∀ r ∈ top_agents df,
      ∀ s ∈ (sortByTicketsDesc (current_month df)).drop 10,
        s.tickets_handled ≤ r.tickets_handled) ∧
    (∀ df : List AgentRow,
      (top_agents df ++ (sortByTicketsDesc (current_month df)).drop 10).Perm
        (current_month df)) ∧
    (∀ (df : List AgentRow) (a b : AgentRow),
      a.tickets_handled = b.tickets_handled →
      [a, b].Sublist (current_month df) →
      [a, b].Sublist (sortByTicketsDesc (current_month df))) ∧
    (∀ df : List AgentRow, ∀ r ∈ top_csat df,
      r.created_month = maxMonth df ∧ 10 ≤ r.tickets_handled) ∧
    (∀ df : List AgentRow, (top_csat df).length ≤ 5) ∧
    (∀ df : List AgentRow, ∀ r ∈ top_csat df,
      ∀ s ∈ (sortByCsatDesc (csat_eligible df)).drop 5,
        s.csat_rate ≤ r.csat_rate) := by
  have trans_t : ∀ a b c : AgentRow,
      decide (b.tickets_handled ≤ a.tickets_handled) = true →
      decide (c.tickets_handled ≤ b.tickets_handled) = true →
      decide (c.tickets_handled ≤ a.tickets_handled) = true := by
    intro a b c hab hbc
    rw [decide_eq_true_eq] at *
    omega
  have total_t : ∀ a b : AgentRow,
      (decide (b.tickets_handled ≤ a.tickets_handled) ||
        decide (a.tickets_handled ≤ b.tickets_handled)) = true := by
    intro a b
    rcases Nat.le_total a.tickets_handled b.tickets_handled with h | h <;>
      simp [h]
  have trans_c : ∀ a b c : AgentRow,
      decide (b.csat_rate ≤ a.csat_rate) = true →
      decide (c.csat_rate ≤ b.csat_rate) = true →
      decide (c.csat_rate ≤ a.csat_rate) = true := by
    intro a b c hab hbc
    rw [decide_eq_true_eq] at *
    exact le_trans hbc hab
  have total_c : ∀ a b : AgentRow,
      (decide (b.csat_rate ≤ a.csat_rate) ||
        decide (a.csat_rate ≤ b.csat_rate)) = true := by
    intro a b
    rcases le_total a.csat_rate b.csat_rate with h | h <;> simp [h]
  have month_eq : ∀ (df : List AgentRow) (r : AgentRow),
      r ∈ current_month df → r.created_month = maxMonth df := by
    intro df r hr
    simp only [current_month] at hr
    have := (List.mem_filter.mp hr).2
    simpa using this
  have mem_top : ∀ (df : List AgentRow) (r : AgentRow),
      r ∈ top_agents df → r ∈ current_month df := by
    intro df r hr
    simp only [top_agents, sortByTicketsDesc] at hr
    exact List.mem_mergeSort.mp (List.mem_of_mem_take hr)
  have mem_csat : ∀ (df : List AgentRow) (r : AgentRow),
      r ∈ top_csat df → r ∈ csat_eligible df := by
    intro df r hr
    simp only [top_csat, sortByCsatDesc] at hr
    exact List.mem_mergeSort.mp (List.mem_of_mem_take hr)
  have eligible_spec : ∀ (df : List AgentRow) (r : AgentRow),
      r ∈ csat_eligible df →
      r ∈ current_month df ∧ 10 ≤ r.tickets_handled := by
    intro df r hr
    simp only [csat_eligible] at hr
    have := List.mem_filter.mp hr
    exact ⟨this.1, by simpa using this.2⟩
  refine ⟨?_, ?_, ?_, ?_, ?_, ?_, ?_, ?_⟩
  · intro df r hr
    exact month_eq df r (mem_top df r hr)
  · intro df
    simp only [top_agents]
    exact List.length_take_le 10 _
  · intro df r hr s hs
    have hsorted := List.sorted_mergeSort trans_t total_t (current_month df)
    rw [← List.take_append_drop 10
      ((current_month df).mergeSort
        (fun a b => decide (b.tickets_handled ≤ a.tickets_handled)))]
      at hsorted
    have hcross := (List.pairwise_append.mp hsorted).2.2 r
      (by simpa [top_agents, sortByTicketsDesc] using hr) s
      (by simpa [sortByTicketsDesc] using hs)
    simpa using hcross
  · intro df
    simp only [top_agents]
    rw [List.take_append_drop]
    exact List.mergeSort_perm _ _
  · intro df a b heq hsub
    have hab : decide (b.tickets_handled ≤ a.tickets_handled) = true := by
      simp [heq]
    exact List.pair_sublist_mergeSort trans_t total_t hab hsub
  · intro df r hr
    have h1 := eligible_spec df r (mem_csat df r hr)
    exact ⟨month_eq df r h1.1, h1.2⟩
  · intro df
    simp only [top_csat]
    exact List.length_take_le 5 _
  · intro df r hr s hs
    have hsorted := List.sorted_mergeSort trans_c total_c (csat_eligible df)
    rw [← List.take_append_drop 5
      ((csat_eligible df).mergeSort
        (fun a b => decide (b.csat_rate ≤ a.csat_rate)))] at hsorted
    have hcross := (List.pairwise_append.mp hsorted).2.2 r
      (by simpa [top_csat, sortByCsatDesc] using hr) s
      (by simpa [sortByCsatDesc] using hs)
    simpa using hcross

/-- Witness for `leaderboards_spec`: a one-row table for the membership
conjuncts and a two-row tie for the stability conjunct. -/
theorem leaderboards_spec_witness :
    (⟨"alice", 5, 12, 9/10⟩ : AgentRow).created_month =
      maxMonth [⟨"alice", 5, 12, 9/10⟩] ∧
    [(⟨"alice", 5, 7, 1⟩ : AgentRow), ⟨"bob", 5, 7, 0⟩].Sublist
      (sortByTicketsDesc
        (current_month [⟨"alice", 5, 7, 1⟩, ⟨"bob", 5, 7, 0⟩])) ∧
    ((⟨"alice", 5, 12, 9/10⟩ : AgentRow).created_month =
      maxMonth [⟨"alice", 5, 12, 9/10⟩] ∧
      10 ≤ (⟨"alice", 5, 12, 9/10⟩ : AgentRow).tickets_handled) :=
  ⟨leaderboards_spec.1 [⟨"alice", 5, 12, 9/10⟩] ⟨"alice", 5, 12, 9/10⟩
    (by simp [top_agents, sortByTicketsDesc, current_month, maxMonth]),
   leaderboards_spec.2.2.2.2.1 [⟨"alice", 5, 7, 1⟩, ⟨"bob", 5, 7, 0⟩]
    ⟨"alice", 5, 7, 1⟩ ⟨"bob", 5, 7, 0⟩ rfl
    (by simp [current_month, maxMonth]),
   leaderboards_spec.2.2.2.2.2.1 [⟨"alice", 5, 12, 9/10⟩]
    ⟨"alice", 5, 12, 9/10⟩
    (by simp [top_csat, sortByCsatDesc, csat_eligible, current_month,
      maxMonth])⟩

/-- Witness for `empty_cases_handled`: instantiated with entirely empty
tables — no agent row matches the maximum month, so the agent charts are
skipped while the section header and footer render without error. -/
theorem empty_cases_handled_witness :
    (renderBody ⟨0, 0, 0, 0, 0, 0, 0, 0⟩ [] [] [] []).countP isAgentChart
      = 0 ∧
    Widget.sectionHead "👥 Agent Performance" ∈
      renderBody ⟨0, 0, 0, 0, 0, 0, 0, 0⟩ [] [] [] [] ∧
    (renderBody ⟨0, 0, 0, 0, 0, 0, 0, 0⟩ [] [] [] []).countP isErrorBox
      = 0 ∧
    Widget.pageFooter ∈ renderBody ⟨0, 0, 0, 0, 0, 0, 0, 0⟩ [] [] [] [] :=
  empty_cases_handled.1 ⟨0, 0, 0, 0, 0, 0, 0, 0⟩ [] [] [] [] rfl

end Dashboard
